import Mathlib

/-
Shallow embedding of src/landsat8.go (package main of the landsat8 scene
downloader).  Pure logic of the program is translated into executable Lean
definitions; the effectful environment (file system, network, standard
library parsers) is passed explicitly as oracle functions and world records,
and the effects a function performs are returned as an explicit event trace.
-/

/-- Errors returned by the embedded Go functions.  The distinct constructors
mirror the distinct error sources of the source file: the package-level
UnexpectedLevel value, time.Parse and strconv.ParseFloat failures, and the
I/O failures of http.Get, os.Create and os.Open. -/
inductive GoError
  | unexpectedLevel
  | timeParse
  | floatParse
  | httpErr
  | createErr
  | openErr
deriving DecidableEq

/-- Models net/http.Client: only the Timeout field matters here; the Go zero
value 0 means no timeout.  Timeout is in nanoseconds, as Go durations are. -/
structure Client where
  timeout : Nat
deriving DecidableEq

/-- Models the package-level default client used by the plain http.Get
function: its Timeout is the zero value, i.e. no timeout at all. -/
def defaultClient : Client := ⟨0⟩

/- ---------- string helpers (models of the strings package) ---------- -/

/-- Models strings.Trim(s, " "): removes leading and trailing spaces. -/
def trimSpaces (s : String) : String :=
  ⟨((s.data.dropWhile fun c => c = ' ').reverse.dropWhile fun c => c = ' ').reverse⟩

/-- Models strings.HasPrefix. -/
def hasPrefixStr (p s : String) : Bool :=
  p.data.isPrefixOf s.data

/-- Models strings.TrimSuffix: drops suf from the end of s when present,
otherwise returns s unchanged. -/
def trimSuffixStr (s suf : String) : String :=
  if suf.data.isSuffixOf s.data then ⟨s.data.take (s.data.length - suf.data.length)⟩ else s

/-- Models filepath.Join on two components (empty components are skipped,
as filepath.Join does). -/
def pathJoin (a b : String) : String :=
  if a = "" then b else a ++ "/" ++ b

def digitVal (c : Char) : Nat := c.toNat - Char.toNat '0'

def allDigits (cs : List Char) : Bool := cs.all fun c => '0' ≤ c && c ≤ '9'

def natOfDigits (cs : List Char) : Nat := cs.foldl (fun a c => a * 10 + digitVal c) 0

/-- An exact decimal number num / 10 ^ exp, the value space in which this
development models Go float64 values produced by strconv.ParseFloat: every
plain decimal literal is represented exactly, and the only operation the
source performs on such a value is the sign test val >= 0, which this
representation decides exactly. -/
structure GoFloat where
  num : Int
  exp : Nat
deriving DecidableEq

/-- The rational value a GoFloat denotes. -/
def GoFloat.toRat (x : GoFloat) : ℚ := (x.num : ℚ) / (10 : ℚ) ^ x.exp

/-- The Go zero value 0, the value a discarded ParseFloat error leaves. -/
def goZeroFloat : GoFloat := ⟨0, 0⟩

/-- The test val >= 0 of the source, decided on the exact representation. -/
def GoFloat.nonneg (x : GoFloat) : Bool := decide (0 ≤ x.num)

/-- Models strconv.ParseFloat(s, 64) on plain decimal notation: an optional
sign, an integer part and an optional fractional part.  Inputs outside this
fragment (exponents, hex floats, Inf/NaN) are rejected; every concrete
string this development evaluates the model on is plain decimal or rejected
by the real ParseFloat as well.  none models a returned error. -/
def parseFloatSimple (s : String) : Option GoFloat :=
  let (neg, ds) :=
    match s.data with
    | '-' :: rest => (true, rest)
    | '+' :: rest => (false, rest)
    | cs => (false, cs)
  match ds.splitOn '.' with
  | [ip] =>
    if ip ≠ [] ∧ allDigits ip then
      let v : Int := natOfDigits ip
      some ⟨if neg then -v else v, 0⟩
    else none
  | [ip, fp] =>
    if ip ≠ [] ∧ fp ≠ [] ∧ allDigits ip ∧ allDigits fp then
      let v : Int := natOfDigits ip * (10 : Int) ^ fp.length + natOfDigits fp
      some ⟨if neg then -v else v, fp.length⟩
    else none
  | _ => none

/-- Models time.Parse with the layout 2006-01-02 15:04:05.000000 used for the
acquisition-date field.  A well-shaped timestamp is mapped to the integer
formed by concatenating its 20 digits, which is strictly monotone in
chronological order, so Before/After on time.Time become < and > on Int.
none models a returned parse error. -/
def parseLstTime (s : String) : Option Int :=
  match s.data with
  | [y1, y2, y3, y4, '-', mo1, mo2, '-', d1, d2, ' ',
     h1, h2, ':', mi1, mi2, ':', s1, s2, '.', f1, f2, f3, f4, f5, f6] =>
    let ds := [y1, y2, y3, y4, mo1, mo2, d1, d2, h1, h2, mi1, mi2, s1, s2, f1, f2, f3, f4, f5, f6]
    if allDigits ds then some (natOfDigits ds : Int) else none
  | _ => none

/- ---------- httpScene.IsDay (lines 112-135) ---------- -/

/-- The key scanned for in the metadata stream (line 124 of the source). -/
def sunKey : String := "SUN_ELEVATION = "

/-- The scanner loop of httpScene.IsDay (lines 122-132): each line is
space-trimmed; the first line starting with the SUN_ELEVATION key determines
the flag: the remainder is parsed (the parse error is discarded, so a failed
parse leaves the Go zero value 0) and the flag is set iff the value is >= 0;
the loop breaks at the first such line; with no such line the flag keeps its
zero value false.  pf is the oracle modelling strconv.ParseFloat. -/
def scanLines (pf : String → Option GoFloat) : List String → Bool
  | [] => false
  | line :: rest =>
    let l := trimSpaces line
    if hasPrefixStr sunKey l then
      ((pf (l.drop sunKey.length)).getD goZeroFloat).nonneg
    else scanLines pf rest

/-- The memoization cell of httpScene: the meta struct of the source. -/
structure MetaCell where
  day : Bool
deriving DecidableEq

/-- The mutable state of one httpScene value: its meta pointer, nil at
construction. -/
structure SceneState where
  meta : Option MetaCell
deriving DecidableEq

/-- One call to httpScene.IsDay (lines 112-135).  fetch is the outcome the
environment gives this call's GetMeta.  Returns the (value, error) pair of
the call, the scene state after the call, and whether a metadata fetch was
actually performed.  Faithful to the source: s.meta is assigned a fresh
zero-valued cell before GetMeta is consulted, so a failed fetch still leaves
s.meta non-nil and every later call returns the memoized false immediately. -/
def isDayStep (pf : String → Option GoFloat) (st : SceneState)
    (fetch : Except GoError (List String)) :
    Except GoError Bool × SceneState × Bool :=
  match st.meta with
  | some m => (Except.ok m.day, st, false)
  | none =>
    match fetch with
    | Except.error e => (Except.error e, ⟨some ⟨false⟩⟩, true)
    | Except.ok lines =>
      let d := scanLines pf lines
      (Except.ok d, ⟨some ⟨d⟩⟩, true)

/-- Result of the worker's IsDay retry loop (lines 311-320): final value of
the rtrs counter, the day and err variables, the scene state after the loop,
and how many metadata fetches were performed. -/
structure IsDayLoopResult where
  rtrs : Nat
  day : Bool
  err : Option GoError
  state : SceneState
  nfetch : Nat
deriving DecidableEq

/-- The loop body iteration: for rtrs = retries; rtrs > 0; rtrs-- calling
scene.IsDay() and breaking on a nil error.  fetches gives the environment's
outcome for the metadata fetch of each successive attempt. -/
def isDayRetryAux (pf : String → Option GoFloat) (fetches : Nat → Except GoError (List String)) :
    SceneState → Nat → Nat → Bool → Option GoError → Nat → IsDayLoopResult
  | st, _, 0, day, err, nf => ⟨0, day, err, st, nf⟩
  | st, i, r + 1, _, _, nf =>
    let (res, st2, fetched) := isDayStep pf st (fetches i)
    let nf2 := nf + (if fetched then 1 else 0)
    match res with
    | Except.ok d => ⟨r + 1, d, none, st2, nf2⟩
    | Except.error e => isDayRetryAux pf fetches st2 (i + 1) r false (some e) nf2

/-- The worker's IsDay retry loop on a freshly resolved scene (meta nil,
day false, err nil, as the Go zero values at line 300-302). -/
def isDayRetry (pf : String → Option GoFloat) (retries : Nat)
    (fetches : Nat → Except GoError (List String)) : IsDayLoopResult :=
  isDayRetryAux pf fetches ⟨none⟩ 0 retries false none 0

/- ---------- HttpRepository and its cache-layer get (lines 149-230) ---------- -/

/-- The HttpRepository struct (lines 149-154).  The Client field is the
http.Client configured by main; note that the body of get never consults it. -/
structure HttpRepository where
  Client : Client
  CachePath : String
  NoCacheMeta : Bool
  CacheBands : Bool
deriving DecidableEq

/-- Result of os.Stat on a path: success, a does-not-exist error (the only
case os.IsNotExist accepts), or any other error. -/
inductive StatResult
  | ok
  | notExist
  | otherErr
deriving DecidableEq

/-- The environment of one call into the cache layer: the outcomes the file
system and the network give to os.Stat, http.Get, os.Create and os.Open. -/
structure World where
  statRes : String → StatResult
  httpGet : String → Except GoError Unit
  createOk : String → Bool
  openOk : String → Bool

/-- What HttpRepository.get returns to its caller. -/
inductive GetOutcome
  | fileStream (path : String)
  | netStream (url : String)
  | err (e : GoError)
  | nilPanic
deriving DecidableEq

/-- Observable effects of one call into the cache layer.  httpReq records
which client performed the network request. -/
inductive Event
  | statE (path : String)
  | httpReq (c : Client) (url : String)
  | createE (path : String)
  | copyE (path : String)
  | openE (path : String)
deriving DecidableEq

/-- The clients of the network requests in a trace, in order. -/
def reqClients : List Event → List Client
  | [] => []
  | Event.httpReq c _ :: rest => c :: reqClients rest
  | _ :: rest => reqClients rest

/-- HttpRepository.get (lines 184-215), translated branch for branch.
os.Stat(cached) is tested with os.IsNotExist; only in the not-exist case is
the network consulted, via the package-level http.Get, i.e. defaultClient —
the receiver's configured Client field is never used.  With cache false the
function returns res.Body together with the error before any error check, so
a failed GET (whose res is nil) dereferences nil and panics.  With cache
true a GET error is returned, otherwise the body is copied into a created
file at cached (a copy error is only logged) and the function falls through
to return os.Open(cached), as it also does whenever the stat was not a
not-exist error. -/
def HttpRepository.get (r : HttpRepository) (w : World) (url cached : String)
    (cache : Bool) : GetOutcome × List Event :=
  match w.statRes cached with
  | StatResult.notExist =>
    let res := w.httpGet url
    if !cache then
      (match res with
       | Except.error _ => GetOutcome.nilPanic
       | Except.ok _ => GetOutcome.netStream url,
       [Event.statE cached, Event.httpReq defaultClient url])
    else
      match res with
      | Except.error e => (GetOutcome.err e, [Event.statE cached, Event.httpReq defaultClient url])
      | Except.ok _ =>
        if w.createOk cached then
          (if w.openOk cached then GetOutcome.fileStream cached else GetOutcome.err GoError.openErr,
           [Event.statE cached, Event.httpReq defaultClient url, Event.createE cached,
            Event.copyE cached, Event.openE cached])
        else
          (GetOutcome.err GoError.createErr,
           [Event.statE cached, Event.httpReq defaultClient url, Event.createE cached])
  | _ =>
    (if w.openOk cached then GetOutcome.fileStream cached else GetOutcome.err GoError.openErr,
     [Event.statE cached, Event.openE cached])

def metaDir : String := "metadata"
def bandDir : String := "bands"

/-- HttpRepository.getMeta (lines 217-220).  Note the cache path concatenates
the id twice, exactly as the source does. -/
def HttpRepository.getMeta (r : HttpRepository) (w : World) (id baseUrl : String) :
    GetOutcome × List Event :=
  let fname := id ++ "_MTL.txt"
  r.get w (baseUrl ++ fname) (pathJoin (pathJoin r.CachePath metaDir) (id ++ fname)) (!r.NoCacheMeta)

/-- HttpRepository.getBand (lines 222-225). -/
def HttpRepository.getBand (r : HttpRepository) (w : World) (id : String) (band : Int)
    (baseUrl : String) : GetOutcome × List Event :=
  let fname := id ++ "_B" ++ toString band ++ ".TIF"
  r.get w (baseUrl ++ fname) (pathJoin (pathJoin r.CachePath bandDir) fname) r.CacheBands

/-- HttpRepository.getBQA (lines 227-230). -/
def HttpRepository.getBQA (r : HttpRepository) (w : World) (id baseUrl : String) :
    GetOutcome × List Event :=
  let fname := id ++ "_BQA.TIF"
  r.get w (baseUrl ++ fname) (pathJoin (pathJoin r.CachePath bandDir) fname) r.CacheBands

/-- The HttpRepository main constructs (lines 283-287): only the Client's
Timeout is set; every other field keeps its Go zero value. -/
def mainRepo (timeout : Nat) : HttpRepository := ⟨⟨timeout⟩, "", false, false⟩

/- ---------- HttpRepository.GetScene (lines 156-182) ---------- -/

inductive Plevel
  | L1T
  | L1GT
deriving DecidableEq

/-- The pure data of a resolved httpScene (lines 86-94), without the repo
back-pointer and the meta cell (the meta cell is SceneState, nil here). -/
structure SceneVal where
  id : String
  acquisitionDate : Int
  cloudCover : GoFloat
  processingLevel : Plevel
  baseUrl : String
deriving DecidableEq

/-- What resolving one record can do: return a scene, return an error, or
panic on an out-of-range index into the record. -/
inductive ResolveResult
  | ok (s : SceneVal)
  | err (e : GoError)
  | indexPanic (i : Nat)
deriving DecidableEq

def ResolveResult.isPanic : ResolveResult → Bool
  | ResolveResult.indexPanic _ => true
  | _ => false

/-- HttpRepository.GetScene (lines 156-182).  Fields are indexed in the
source's evaluation order — rec[1] (time.Parse), rec[2] (ParseFloat), rec[3]
(level vocabulary), then in the struct literal rec[0] and rec[10] — with no
length check anywhere, so a missing index is a panic.  pt and pcc are the
oracles modelling time.Parse with the lstformat layout and ParseFloat.
GetScene performs no network or file-system operation. -/
def GetScene (pt : String → Option Int) (pcc : String → Option GoFloat)
    (rec : List String) : ResolveResult :=
  match rec[1]? with
  | none => ResolveResult.indexPanic 1
  | some ts =>
    match pt ts with
    | none => ResolveResult.err GoError.timeParse
    | some accDate =>
      match rec[2]? with
      | none => ResolveResult.indexPanic 2
      | some ccs =>
        match pcc ccs with
        | none => ResolveResult.err GoError.floatParse
        | some cc =>
          match rec[3]? with
          | none => ResolveResult.indexPanic 3
          | some pls =>
            if pls = "L1T" ∨ pls = "L1GT" then
              match rec[0]? with
              | none => ResolveResult.indexPanic 0
              | some rid =>
                match rec[10]? with
                | none => ResolveResult.indexPanic 10
                | some loc =>
                  ResolveResult.ok
                    ⟨rid, accDate, cc, if pls = "L1T" then Plevel.L1T else Plevel.L1GT,
                     trimSuffixStr loc "index.html"⟩
            else ResolveResult.err GoError.unexpectedLevel

/- ---------- the worker body (lines 294-411) ---------- -/

/-- Outcome the environment gives one iteration of a persist loop (lines
331-347, 356-372, 382-398): the os.Create of the output file fails, the
artifact fetch (GetMeta/GetBQA/GetBand) fails, the io.Copy fails, or all
three succeed. -/
inductive AttemptRes
  | createFail
  | fetchFail
  | copyFail
  | ok
deriving DecidableEq

/-- How a persist loop ends: success (break), immediate abandonment on a
create error (the return inside the loop), or exhaustion of the counter. -/
inductive PersistOutcome
  | success
  | abandonedCreate
  | abandonedExhausted
deriving DecidableEq

/-- One persist loop, for rtrs = retries; rtrs > 0; rtrs--: os.Create error
returns out of the whole record handler at once; a fetch or copy error
continues into the next iteration; otherwise break.  att i is the
environment's outcome for attempt i.  Returns the final rtrs, the number of
attempts (loop-body iterations) executed, and the outcome; the caller treats
rtrs = 0 as exhaustion. -/
def persistLoopAux (att : Nat → AttemptRes) : Nat → Nat → Nat × Nat × PersistOutcome
  | i, 0 => (0, i, PersistOutcome.abandonedExhausted)
  | i, r + 1 =>
    match att i with
    | AttemptRes.createFail => (r + 1, i + 1, PersistOutcome.abandonedCreate)
    | AttemptRes.ok => (r + 1, i + 1, PersistOutcome.success)
    | _ => persistLoopAux att (i + 1) r

def persistLoop (att : Nat → AttemptRes) (retries : Nat) : Nat × Nat × PersistOutcome :=
  persistLoopAux att 0 retries

/-- The per-band sequence of persist loops (lines 379-403): bands are
processed in order; the first loop that does not succeed abandons the record.
Returns the total attempts executed and the first abandoned band, if any. -/
def bandsLoop (attOf : Int → Nat → AttemptRes) (retries : Nat) :
    List Int → Nat × Option Int
  | [] => (0, none)
  | b :: bs =>
    match persistLoop (attOf b) retries with
    | (_, n, PersistOutcome.success) =>
      let (m, res) := bandsLoop attOf retries bs
      (n + m, res)
    | (_, n, _) => (n, some b)

/-- The startup configuration a worker closes over: the from/to window, the
retries flag, the bqa flag and the requested band list. -/
structure WorkerCfg where
  fromT : Int
  toT : Int
  retries : Nat
  bqa : Bool
  bands : List Int

/-- The environment of one record's processing: the parser oracles, the
metadata-fetch outcome of each IsDay attempt, the os.MkdirAll outcome, and
the per-attempt outcomes of the metadata, BQA and band persist loops. -/
structure WorkerEnv where
  pt : String → Option Int
  pcc : String → Option GoFloat
  pf : String → Option GoFloat
  fetchMeta : Nat → Except GoError (List String)
  mkdirOk : Bool
  metaAtt : Nat → AttemptRes
  bqaAtt : Nat → AttemptRes
  bandAtt : Int → Nat → AttemptRes

/-- How the worker's anonymous per-record function (lines 299-408) ends. -/
inductive WorkerOutcome
  | resolvePanic (i : Nat)
  | parseFail
  | dateFiltered
  | isDayFail
  | isDaytime
  | mkdirFail
  | abandonedMeta
  | abandonedBqa
  | abandonedBand (b : Int)
  | emitted (id : String)
deriving DecidableEq

/-- Result of processing one record: the outcome (emitted id = the send into
the ids channel on line 406; everything else is a silent or logged return
with nothing sent), how many metadata fetches IsDay performed, and how many
persist-loop iterations ran. -/
structure WorkerResult where
  outcome : WorkerOutcome
  metaFetches : Nat
  persistAttempts : Nat
deriving DecidableEq

/-- The band section and the final send (lines 379-406): runs the per-band
loops and, when all succeed, emits the scene id. -/
def bandsStep (cfg : WorkerCfg) (env : WorkerEnv) (nf acc : Nat) (sid : String) :
    WorkerResult :=
  match bandsLoop env.bandAtt cfg.retries cfg.bands with
  | (bn, none) => ⟨WorkerOutcome.emitted sid, nf, acc + bn⟩
  | (bn, some b) => ⟨WorkerOutcome.abandonedBand b, nf, acc + bn⟩

/-- The download phase entered for a nighttime scene after MkdirAll succeeds
(lines 329-406): the metadata persist loop always, the BQA persist loop when
the bqa flag is set, then the bands. -/
def downloadPhase (cfg : WorkerCfg) (env : WorkerEnv) (nf : Nat) (sid : String) :
    WorkerResult :=
  match persistLoop env.metaAtt cfg.retries with
  | (_, mn, PersistOutcome.success) =>
    if cfg.bqa then
      match persistLoop env.bqaAtt cfg.retries with
      | (_, qn, PersistOutcome.success) => bandsStep cfg env nf (mn + qn) sid
      | (_, qn, _) => ⟨WorkerOutcome.abandonedBqa, nf, mn + qn⟩
    else bandsStep cfg env nf mn sid
  | (_, mn, _) => ⟨WorkerOutcome.abandonedMeta, nf, mn⟩

/-- The part of the worker body after the date filter (lines 311-407): the
IsDay retry loop, exhaustion check, the day test, MkdirAll, then the
download phase. -/
def processScene (cfg : WorkerCfg) (env : WorkerEnv) (s : SceneVal) : WorkerResult :=
  let r := isDayRetry env.pf cfg.retries env.fetchMeta
  if r.rtrs = 0 then ⟨WorkerOutcome.isDayFail, r.nfetch, 0⟩
  else if r.day then ⟨WorkerOutcome.isDaytime, r.nfetch, 0⟩
  else if env.mkdirOk then downloadPhase cfg env r.nfetch s.id
  else ⟨WorkerOutcome.mkdirFail, r.nfetch, 0⟩

/-- The whole per-record worker body (lines 299-408): resolve the record,
apply the date filter scene.Acquisition().Before(from) ||
scene.Acquisition().After(to) (line 308), then process the scene. -/
def workerProcess (cfg : WorkerCfg) (env : WorkerEnv) (rec : List String) : WorkerResult :=
  match GetScene env.pt env.pcc rec with
  | ResolveResult.indexPanic i => ⟨WorkerOutcome.resolvePanic i, 0, 0⟩
  | ResolveResult.err _ => ⟨WorkerOutcome.parseFail, 0, 0⟩
  | ResolveResult.ok s =>
    if s.acquisitionDate < cfg.fromT ∨ cfg.toT < s.acquisitionDate then
      ⟨WorkerOutcome.dateFiltered, 0, 0⟩
    else processScene cfg env s

/-- The declarative reading of the metadata scan used to compare the scanner
with the spec wording: the remainder of the first space-trimmed line
starting with the SUN_ELEVATION key, if any. -/
def firstSunRemainder (lines : List String) : Option String :=
  ((lines.map trimSpaces).find? fun l => hasPrefixStr sunKey l).map fun l => l.drop sunKey.length

/- ---------- concrete worlds, records and configurations ---------- -/

/-- A world where every cache path already holds a file and all opens
succeed. -/
def wCached : World :=
  ⟨fun _ => StatResult.ok, fun _ => Except.ok (), fun _ => true, fun _ => true⟩

/-- A world with no cached files where every network request fails. -/
def wNetDown : World :=
  ⟨fun _ => StatResult.notExist, fun _ => Except.error GoError.httpErr,
   fun _ => true, fun _ => true⟩

/-- A world with no cached files and a working network and file system. -/
def wFresh : World :=
  ⟨fun _ => StatResult.notExist, fun _ => Except.ok (), fun _ => true, fun _ => true⟩

/-- The metadata-fetch outcomes of Scenario C of the spec: the first two
attempts fail, every later attempt returns a daytime metadata file. -/
def fetchesScenarioC : Nat → Except GoError (List String) :=
  fun n => if n < 2 then Except.error GoError.httpErr else Except.ok [("SUN_ELEVATION = 15.2")]

/-- A record whose timestamp field is malformed and whose level field is an
unrecognized code, with the full 11 columns. -/
def recBadBoth : List String :=
  [("LC1"), ("garbage"), ("1.0"), ("L2"), "", "", "", "", "", "", ("http://h/index.html")]

/-- A well-formed record except for the unrecognized level code L2. -/
def recL2 : List String :=
  [("LC1"), ("2016-09-15 10:00:00.000000"), ("1.0"), ("L2"), "", "", "", "", "", "",
   ("http://h/index.html")]

/-- A fully valid 11-column record. -/
def recValid : List String :=
  [("LC1"), ("2016-09-15 10:00:00.000000"), ("1.0"), ("L1T"), "", "", "", "", "", "",
   ("http://h/index.html")]

/-- A 4-column record with a malformed timestamp. -/
def recShortBadTime : List String := [("LC1"), ("garbage"), ("1.0"), ("L2")]

/-- A 4-column record whose first four fields all parse. -/
def recShortL1T : List String :=
  [("LC1"), ("2016-09-15 10:00:00.000000"), ("1.0"), ("L1T")]

/-- A configuration with a window in the distant future of recValid. -/
def cfgLate : WorkerCfg := ⟨20200101000000000000, 20210101000000000000, 3, false, []⟩

/-- A small sample configuration. -/
def cfgW : WorkerCfg := ⟨0, 100, 3, false, []⟩

/-- An environment whose artifact fetches always fail while everything else
behaves. -/
def envAllFetchFail : WorkerEnv :=
  ⟨parseLstTime, parseFloatSimple, parseFloatSimple, fun _ => Except.ok [], true,
   fun _ => AttemptRes.fetchFail, fun _ => AttemptRes.fetchFail, fun _ _ => AttemptRes.fetchFail⟩

/- ---------- helper lemmas ---------- -/

/-- nonneg is exactly non-negativity of the denoted rational value, so the
sign test of the source is decided faithfully by the exact representation. -/
theorem GoFloat.nonneg_iff (x : GoFloat) : x.nonneg = true ↔ 0 ≤ x.toRat := by
  have hp : (0 : ℚ) < (10 : ℚ) ^ x.exp := by positivity
  simp only [GoFloat.nonneg, GoFloat.toRat, decide_eq_true_eq]
  rw [le_div_iff₀ hp, zero_mul]
  exact_mod_cast Iff.rfl

/-- The scanner loop equals its declarative reading: the first space-trimmed
line bearing the SUN_ELEVATION key decides the flag; no such line gives
false. -/
theorem scanLines_eq_firstSun (pf : String → Option GoFloat) (lines : List String) :
    scanLines pf lines =
      match firstSunRemainder lines with
      | none => false
      | some rem => ((pf rem).getD goZeroFloat).nonneg := by
  induction lines with
  | nil => rfl
  | cons l ls ih =>
    by_cases h : hasPrefixStr sunKey (trimSpaces l) = true
    · have hf : List.find? (fun x => hasPrefixStr sunKey x)
          (trimSpaces l :: List.map trimSpaces ls) = some (trimSpaces l) :=
        List.find?_cons_of_pos _ h
      simp only [scanLines, firstSunRemainder, List.map_cons, hf, h, if_true,
        Option.map_some']
    · have hf : List.find? (fun x => hasPrefixStr sunKey x)
          (trimSpaces l :: List.map trimSpaces ls) =
          List.find? (fun x => hasPrefixStr sunKey x) (List.map trimSpaces ls) :=
        List.find?_cons_of_neg _ h
      rw [Bool.not_eq_true] at h
      simp only [scanLines, firstSunRemainder, List.map_cons, hf, h,
        Bool.false_eq_true, if_false]
      exact ih

/-- A persist loop whose every attempt fails with a fetch or copy error runs
its body exactly r times and ends exhausted. -/
theorem persistLoopAux_exhaust (att : Nat → AttemptRes)
    (h : ∀ j, att j = AttemptRes.fetchFail ∨ att j = AttemptRes.copyFail) :
    ∀ r i, persistLoopAux att i r = (0, i + r, PersistOutcome.abandonedExhausted) := by
  intro r
  induction r with
  | zero => intro i; simp [persistLoopAux]
  | succ n ih =>
    intro i
    rcases h i with hc | hc <;>
      simp [persistLoopAux, hc, ih (i + 1)] <;> omega

/-- The band section never reports the date filter. -/
theorem bandsStep_ne_dateFiltered (cfg : WorkerCfg) (env : WorkerEnv) (nf acc : Nat)
    (sid : String) : (bandsStep cfg env nf acc sid).outcome ≠ WorkerOutcome.dateFiltered := by
  unfold bandsStep
  split <;> simp

/-- The download phase never reports the date filter. -/
theorem downloadPhase_ne_dateFiltered (cfg : WorkerCfg) (env : WorkerEnv) (nf : Nat)
    (sid : String) : (downloadPhase cfg env nf sid).outcome ≠ WorkerOutcome.dateFiltered := by
  unfold downloadPhase
  split
  · split
    · split
      · exact bandsStep_ne_dateFiltered cfg env nf _ sid
      · simp
    · exact bandsStep_ne_dateFiltered cfg env nf _ sid
  · simp

/-- The part of the worker body after the date filter never reports the date
filter as its outcome. -/
theorem processScene_ne_dateFiltered (cfg : WorkerCfg) (env : WorkerEnv) (s : SceneVal) :
    (processScene cfg env s).outcome ≠ WorkerOutcome.dateFiltered := by
  unfold processScene
  by_cases h1 : (isDayRetry env.pf cfg.retries env.fetchMeta).rtrs = 0
  · simp [h1]
  · by_cases h2 : (isDayRetry env.pf cfg.retries env.fetchMeta).day = true
    · simp [h1, h2]
    · by_cases h3 : env.mkdirOk = true
      · simpa [h1, h2, h3] using
          downloadPhase_ne_dateFiltered cfg env
            (isDayRetry env.pf cfg.retries env.fetchMeta).nfetch s.id
      · simp [h1, h2, h3]

/- ---------- claim theorems ---------- -/

/-- C1: the code contradicts the claim.  In Scenario C (retries = 3, the
metadata fetch fails on the first two attempts, and the third attempt's
fetch would succeed with a daytime metadata file) the retry loop does NOT
reach a successful third fetch: the first IsDay call memoizes a zero-valued
meta cell before checking the fetch error, so the second call returns the
memoized (false, nil) immediately.  The loop ends with rtrs = 2 (success on
the second attempt), day = false and exactly one fetch performed — even
though the metadata the later attempts would have fetched (SUN_ELEVATION =
15.2) classifies the scene as daytime. -/
theorem c1_isDay_retry_memoization_bug :
    isDayRetry parseFloatSimple 3 fetchesScenarioC = ⟨2, false, none, ⟨some ⟨false⟩⟩, 1⟩ ∧
    fetchesScenarioC 2 = Except.ok [("SUN_ELEVATION = 15.2")] ∧
    scanLines parseFloatSimple [("SUN_ELEVATION = 15.2")] = true := by
  exact ⟨by decide, rfl, by decide⟩

/-- C2: the code contradicts the claim.  Every network request the cache
layer ever issues goes through http.Get, i.e. the package default client
with no timeout; the repository's configured Client — the one main builds
with the timeout flag (here 20 minutes in nanoseconds) — is never used, and
differs from the default client whenever the timeout is non-zero. -/
theorem c2_requests_bypass_configured_client :
    (∀ (r : HttpRepository) (w : World) (url cached : String) (cache : Bool),
        reqClients (r.get w url cached cache).2 = [] ∨
        reqClients (r.get w url cached cache).2 = [defaultClient]) ∧
    (mainRepo 1200000000000).Client ≠ defaultClient ∧
    reqClients ((mainRepo 1200000000000).get wFresh ("http://h/f") ("c/f") true).2 =
      [defaultClient] := by
  refine ⟨?_, by decide, by decide⟩
  intro r w url cached cache
  unfold HttpRepository.get
  rcases w.statRes cached with _ | _ | _
  · left; rfl
  · cases cache with
    | false => right; rfl
    | true =>
      rcases w.httpGet url with e | u
      · right; rfl
      · rcases w.createOk cached with _ | _
        · right; rfl
        · right; rfl
  · left; rfl

/-- C3 counterexample: a call into the cache layer with caching disabled, in
a world where a file already sits at the local cache path, opens and returns
that file's stream and issues NO network request at all — contradicting the
claim that with cacheEnabled = false the operation always performs a direct
network read regardless of whether a file exists at the cache path. -/
theorem c3_cex_nocache_reads_cache_file :
    (mainRepo 1200000000000).get wCached ("http://h/f.TIF") ("c/f.TIF") false =
      (GetOutcome.fileStream ("c/f.TIF"),
       [Event.statE ("c/f.TIF"), Event.openE ("c/f.TIF")]) ∧
    reqClients [Event.statE ("c/f.TIF"), Event.openE ("c/f.TIF")] = [] := by
  exact ⟨by decide, by decide⟩

/-- C3 amended: with cacheEnabled = false, when no file exists at the local
cache path and the GET succeeds, the operation performs a direct network
read and returns the network stream, with no create, copy or open of any
file; but when the stat at the cache path does not report not-exist, the
operation opens and returns the file at the cache path and issues no network
request, caching disabled notwithstanding. -/
theorem c3_amended_nocache_behavior (r : HttpRepository) (w : World) (url cached : String) :
    (w.statRes cached = StatResult.notExist → w.httpGet url = Except.ok () →
      r.get w url cached false =
        (GetOutcome.netStream url, [Event.statE cached, Event.httpReq defaultClient url])) ∧
    (w.statRes cached ≠ StatResult.notExist →
      r.get w url cached false =
        (if w.openOk cached then GetOutcome.fileStream cached else GetOutcome.err GoError.openErr,
         [Event.statE cached, Event.openE cached])) := by
  constructor
  · intro h1 h2
    unfold HttpRepository.get
    rw [h1, h2]
    rfl
  · intro h1
    unfold HttpRepository.get
    rcases hs : w.statRes cached with _ | _ | _
    · rfl
    · exact absurd hs h1
    · rfl

/-- Witness for the C3 amended theorem at a concrete repository and world. -/
theorem c3_amended_nocache_behavior_witness :
    (mainRepo 0).get wCached ("http://h/f") ("c/f") false =
      (GetOutcome.fileStream ("c/f"), [Event.statE ("c/f"), Event.openE ("c/f")]) := by
  have h := (c3_amended_nocache_behavior (mainRepo 0) wCached ("http://h/f") ("c/f")).2
    (by decide)
  simpa using h

/-- C4 counterexample: an artifact persist step whose os.Create fails on
every attempt, with retries = 3, is abandoned after a single attempt — the
create error is returned immediately, not retried — so it is not the case
that any error in open/fetch/copy is retried, nor that an operation failing
on every attempt is attempted exactly retries times. -/
theorem c4_cex_create_error_not_retried :
    persistLoop (fun _ => AttemptRes.createFail) 3 = (3, 1, PersistOutcome.abandonedCreate) ∧
    (1 : Nat) ≠ 3 := by
  exact ⟨by decide, by decide⟩

/-- C4 amended: fetch and copy errors in a persist step are retried, and a
step whose fetch or copy fails on every attempt runs exactly retries
attempts and ends exhausted; when this happens to the metadata step the
whole record is abandoned — the download phase reports abandonedMeta after
exactly retries attempts and never reaches the send of the scene id into
the result sink.  An os.Create error, by contrast, abandons the record at
once (see the counterexample). -/
theorem c4_amended_retry_exhaustion (cfg : WorkerCfg) (env : WorkerEnv) (nf : Nat)
    (sid : String) :
    (∀ att : Nat → AttemptRes,
        (∀ j, att j = AttemptRes.fetchFail ∨ att j = AttemptRes.copyFail) →
        persistLoop att cfg.retries = (0, cfg.retries, PersistOutcome.abandonedExhausted)) ∧
    ((∀ j, env.metaAtt j = AttemptRes.fetchFail ∨ env.metaAtt j = AttemptRes.copyFail) →
        downloadPhase cfg env nf sid = ⟨WorkerOutcome.abandonedMeta, nf, cfg.retries⟩ ∧
        ∀ s, (downloadPhase cfg env nf sid).outcome ≠ WorkerOutcome.emitted s) := by
  have key : ∀ att : Nat → AttemptRes,
      (∀ j, att j = AttemptRes.fetchFail ∨ att j = AttemptRes.copyFail) →
      persistLoop att cfg.retries = (0, cfg.retries, PersistOutcome.abandonedExhausted) := by
    intro att h
    have := persistLoopAux_exhaust att h cfg.retries 0
    simpa [persistLoop] using this
  refine ⟨key, fun h => ?_⟩
  have hm := key env.metaAtt h
  constructor
  · unfold downloadPhase
    rw [hm]
  · intro s
    unfold downloadPhase
    rw [hm]
    simp

/-- Witness for the C4 amended theorem: with every metadata fetch failing
and retries = 3, the download phase abandons the record after 3 attempts. -/
theorem c4_amended_retry_exhaustion_witness :
    downloadPhase cfgW envAllFetchFail 1 ("LC1") = ⟨WorkerOutcome.abandonedMeta, 1, 3⟩ :=
  ((c4_amended_retry_exhaustion cfgW envAllFetchFail 1 ("LC1")).2
    (fun _ => Or.inl rfl)).1

/-- C5: for every successfully resolved scene, the worker's date filter
discards the record — with no metadata fetch, no persist attempt and no
emission — exactly when the acquisition time is strictly before from or
strictly after to; every other scene passes the filter (the window is
closed at both endpoints). -/
theorem c5_date_filter_window (cfg : WorkerCfg) (env : WorkerEnv) (rec : List String)
    (s : SceneVal) (hres : GetScene env.pt env.pcc rec = ResolveResult.ok s) :
    workerProcess cfg env rec = ⟨WorkerOutcome.dateFiltered, 0, 0⟩ ↔
      (s.acquisitionDate < cfg.fromT ∨ cfg.toT < s.acquisitionDate) := by
  unfold workerProcess
  rw [hres]
  by_cases h : s.acquisitionDate < cfg.fromT ∨ cfg.toT < s.acquisitionDate
  · simp [h]
  · simp only [h, if_false, iff_false]
    intro heq
    exact processScene_ne_dateFiltered cfg env s (by rw [heq])

/-- Witness for C5: a valid 2016 scene against a 2020-2021 window is
filtered out with nothing fetched and nothing emitted. -/
theorem c5_date_filter_window_witness :
    workerProcess cfgLate envAllFetchFail recValid =
      ⟨WorkerOutcome.dateFiltered, 0, 0⟩ :=
  (c5_date_filter_window cfgLate envAllFetchFail recValid
      ⟨"LC1", 20160915100000000000, ⟨10, 1⟩, Plevel.L1T, "http://h/"⟩
      (by decide)).2 (by decide)

/-- C6 counterexample: a record whose level field is the unrecognized code
L2 but whose timestamp field is also malformed resolves to the time-parse
error, not to UnexpectedLevel — the claim fails for records whose earlier
fields do not parse. -/
theorem c6_cex_badlevel_masked_by_time_error :
    recBadBoth[3]? = some ("L2") ∧
    GetScene parseLstTime parseFloatSimple recBadBoth = ResolveResult.err GoError.timeParse ∧
    ResolveResult.err GoError.timeParse ≠ ResolveResult.err GoError.unexpectedLevel := by
  exact ⟨by decide, by decide, by decide⟩

/-- C6 amended: for every record whose timestamp and cloud-cover fields are
present and parse, and whose level field is neither L1T nor L1GT, GetScene
fails with exactly the UnexpectedLevel error (and, the embedding of GetScene
being pure, no network call is made). -/
theorem c6_amended_unexpected_level (pt : String → Option Int)
    (pcc : String → Option GoFloat) (rec : List String) (ts ccs pls : String)
    (t : Int) (cc : GoFloat)
    (h1 : rec[1]? = some ts) (h2 : pt ts = some t)
    (h3 : rec[2]? = some ccs) (h4 : pcc ccs = some cc)
    (h5 : rec[3]? = some pls) (h6 : pls ≠ "L1T") (h7 : pls ≠ "L1GT") :
    GetScene pt pcc rec = ResolveResult.err GoError.unexpectedLevel := by
  unfold GetScene
  simp only [h1, h2, h3, h4, h5]
  simp [h6, h7]

/-- Witness for the C6 amended theorem: a fully parseable record with level
code L2 resolves to UnexpectedLevel. -/
theorem c6_amended_unexpected_level_witness :
    GetScene parseLstTime parseFloatSimple recL2 = ResolveResult.err GoError.unexpectedLevel :=
  c6_amended_unexpected_level parseLstTime parseFloatSimple recL2
    ("2016-09-15 10:00:00.000000") ("1.0") ("L2") 20160915100000000000 ⟨10, 1⟩
    (by decide) (by decide) (by decide) (by decide) (by decide) (by decide) (by decide)

/-- C7 counterexample: a metadata stream whose only line bears the
SUN_ELEVATION key with a remainder that does not parse as a float is
classified DAYTIME with no error, although no line of the stream has a
remainder parsing to a non-negative float — refuting the claimed iff. -/
theorem c7_cex_unparseable_classified_daytime :
    (isDayStep parseFloatSimple ⟨none⟩ (Except.ok [("SUN_ELEVATION = abc")])).1 =
      Except.ok true ∧
    firstSunRemainder [("SUN_ELEVATION = abc")] = some ("abc") ∧
    parseFloatSimple ("abc") = none := by
  exact ⟨rfl, by decide, by decide⟩

/-- C7 amended: on a successfully fetched metadata stream, IsDay scans
line-by-line and returns, with no error, a classification decided by the
FIRST space-trimmed line bearing the SUN_ELEVATION key: daytime iff that
line's remainder, parsed with a failed parse counting as the value 0,
is non-negative; if no line bears the key the scene is nighttime. -/
theorem c7_amended_first_key_line_decides (pf : String → Option GoFloat)
    (lines : List String) :
    (isDayStep pf ⟨none⟩ (Except.ok lines)).1 =
      Except.ok (match firstSunRemainder lines with
        | none => false
        | some rem => ((pf rem).getD goZeroFloat).nonneg) := by
  have h := scanLines_eq_firstSun pf lines
  exact congrArg Except.ok h

/-- C8: with caching disabled and no file at the local cache path, a failed
HTTP GET makes the cache layer evaluate res.Body on the nil response — the
error branch is the nil-dereference panic, not a returned error. -/
theorem c8_nocache_get_error_nil_deref (r : HttpRepository) (w : World)
    (url cached : String) (e : GoError)
    (h1 : w.statRes cached = StatResult.notExist)
    (h2 : w.httpGet url = Except.error e) :
    (r.get w url cached false).1 = GetOutcome.nilPanic := by
  unfold HttpRepository.get
  rw [h1, h2]
  rfl

/-- Witness for C8 at a concrete repository and world with a dead network. -/
theorem c8_nocache_get_error_nil_deref_witness :
    ((mainRepo 0).get wNetDown ("http://h/f") ("c/f") false).1 = GetOutcome.nilPanic :=
  c8_nocache_get_error_nil_deref (mainRepo 0) wNetDown ("http://h/f") ("c/f")
    GoError.httpErr rfl rfl

/-- C9 counterexample: a 4-field record (fewer than 11 fields) whose
timestamp field is malformed does NOT panic — GetScene returns the
time-parse error before any out-of-range index is reached — refuting the
claim that every record with fewer than 11 fields panics. -/
theorem c9_cex_short_record_no_panic :
    recShortBadTime.length < 11 ∧
    (GetScene parseLstTime parseFloatSimple recShortBadTime).isPanic = false ∧
    GetScene parseLstTime parseFloatSimple recShortBadTime =
      ResolveResult.err GoError.timeParse := by
  exact ⟨by decide, by decide, by decide⟩

/-- C9 amended: GetScene indexes fields 1, 2, 3 and 10 with no length check,
so a record with fewer than 11 fields whose fields 1-3 are present and parse
(valid timestamp, valid float, recognized level) panics with the
out-of-range index 10; short records that fail earlier return that parse
error instead of panicking. -/
theorem c9_amended_short_record_panics (pt : String → Option Int)
    (pcc : String → Option GoFloat) (rec : List String) (ts ccs pls : String)
    (t : Int) (cc : GoFloat)
    (hlen : rec.length < 11)
    (h1 : rec[1]? = some ts) (h2 : pt ts = some t)
    (h3 : rec[2]? = some ccs) (h4 : pcc ccs = some cc)
    (h5 : rec[3]? = some pls) (h6 : pls = "L1T" ∨ pls = "L1GT") :
    GetScene pt pcc rec = ResolveResult.indexPanic 10 := by
  have hlen1 : 1 < rec.length := by
    rcases List.getElem?_eq_some.mp h1 with ⟨h, _⟩
    exact h
  have h0 : rec[0]? = some rec[0] := List.getElem?_eq_getElem (by omega)
  have h10 : rec[10]? = none := List.getElem?_eq_none (by omega)
  unfold GetScene
  simp only [h1, h2, h3, h4, h5, h0, h10]
  rw [if_pos h6]

/-- Witness for the C9 amended theorem: a 4-field record whose first four
fields all parse makes GetScene reach the unchecked index 10 and panic. -/
theorem c9_amended_short_record_panics_witness :
    GetScene parseLstTime parseFloatSimple recShortL1T = ResolveResult.indexPanic 10 :=
  c9_amended_short_record_panics parseLstTime parseFloatSimple recShortL1T
    ("2016-09-15 10:00:00.000000") ("1.0") ("L1T") 20160915100000000000 ⟨10, 1⟩
    (by decide) (by decide) (by decide) (by decide) (by decide) (by decide)
    (Or.inl rfl)

/-- C10 counterexample: a metadata stream whose FIRST key line parses to the
negative value -3.7 and whose SECOND key line has an unparseable remainder
is classified nighttime — the stream contains a key line with an unparseable
remainder, yet the scene is not classified daytime, refuting the claim as
quantified over every stream containing such a line. -/
theorem c10_cex_first_line_shadows_unparseable :
    (isDayStep parseFloatSimple ⟨none⟩
        (Except.ok [("SUN_ELEVATION = -3.7"), ("SUN_ELEVATION = abc")])).1 =
      Except.ok false ∧
    hasPrefixStr sunKey (trimSpaces ("SUN_ELEVATION = abc")) = true ∧
    parseFloatSimple ((trimSpaces ("SUN_ELEVATION = abc")).drop sunKey.length) = none := by
  exact ⟨rfl, by decide, by decide⟩

/-- C10 amended: whenever the FIRST space-trimmed line bearing the
SUN_ELEVATION key has a remainder the float parser rejects, the parse error
is discarded, the value is left at the Go zero 0, and — 0 being
non-negative — the scene is classified daytime with no error. -/
theorem c10_amended_unparseable_first_key_daytime (pf : String → Option GoFloat)
    (lines : List String) (rem : String)
    (h1 : firstSunRemainder lines = some rem) (h2 : pf rem = none) :
    (isDayStep pf ⟨none⟩ (Except.ok lines)).1 = Except.ok true := by
  have h := scanLines_eq_firstSun pf lines
  rw [h1] at h
  simp only [h2, Option.getD_none] at h
  have hz : goZeroFloat.nonneg = true := by decide
  rw [hz] at h
  exact congrArg Except.ok h

/-- Witness for the C10 amended theorem at a concrete one-line stream. -/
theorem c10_amended_unparseable_first_key_daytime_witness :
    (isDayStep parseFloatSimple ⟨none⟩ (Except.ok [("SUN_ELEVATION = xyz")])).1 =
      Except.ok true :=
  c10_amended_unparseable_first_key_daytime parseFloatSimple
    [("SUN_ELEVATION = xyz")] ("xyz") (by decide) (by decide)
